import Mathlib

/-!
Verification development for an MCP chat-client repository.

Shallow embedding of:
* `src/utils/custom_mongo_history.py` — message (de)serialization and the
  Mongo-backed chat history store (`CustomMongoChatMessageHistory`);
* `src/client.py` — `safe_messages_to_dict`, `get_system_prompt_from_file`
  (the pure rendering core), `MCPClient.__init__` (credential check) and
  `MCPClient.process_query` (the orchestration loop for one turn);
* `src/main.py` — the `/uscagent/chat` FastAPI endpoint.

External I/O (the OpenAI completion API, the MCP tool channel, JSON parsing,
file reads, wall-clock time) is represented by an environment record of
function-valued fields; MongoDB is modelled as an explicit list of records.
-/

namespace McpRag

/-- A tool call as carried on an OpenAI assistant message:
`tool_call.id`, `tool_call.function.name`, `tool_call.function.arguments`
(the raw JSON string payload). -/
structure ToolCall where
  id : String
  name : String
  arguments : String
deriving Repr, DecidableEq

/-- Structured JSON data, the result of `json.loads`. -/
inductive Json where
  | null : Json
  | bool (b : Bool) : Json
  | num (n : Int) : Json
  | str (s : String) : Json
  | arr (elems : List Json) : Json
  | obj (fields : List (String × Json)) : Json

/-- The empty argument mapping `{}` used when `json.loads` fails. -/
def empty_args : Json := Json.obj []

/-- A langchain `BaseMessage` as used by this repository: `HumanMessage`,
`AIMessage` (which in langchain carries a `tool_calls` list, empty when
constructed from plain text), `SystemMessage`, or any other message class
(`ToolMessage`, `FunctionMessage`, ...), kept abstract as `other` with its
type name and content. -/
inductive BaseMessage where
  | human (content : String) : BaseMessage
  | ai (content : String) (tool_calls : List ToolCall) : BaseMessage
  | system (content : String) : BaseMessage
  | other (typeName : String) (content : String) : BaseMessage
deriving Repr, DecidableEq

/-- The dict stored per message in MongoDB:
`{"type": ..., "data": {"content": ...}}`. -/
structure SerializedMessage where
  type_ : String
  content : String
deriving Repr, DecidableEq

/-- `serialize_message` from `src/utils/custom_mongo_history.py`: only the
`content` attribute of the message is recorded next to its type tag; any
type other than human/ai/system raises `ValueError`. -/
def serialize_message : BaseMessage → Except String SerializedMessage
  | .human c => .ok ⟨"human", c⟩
  | .ai c _ => .ok ⟨"ai", c⟩
  | .system c => .ok ⟨"system", c⟩
  | .other t _ => .error ("Unsupported message type: " ++ t)

/-- `deserialize_message` from `src/utils/custom_mongo_history.py`:
rebuilds a message from its type tag and content, raising `ValueError`
on an unknown tag. -/
def deserialize_message (d : SerializedMessage) : Except String BaseMessage :=
  if d.type_ = "human" then .ok (.human d.content)
  else if d.type_ = "ai" then .ok (.ai d.content [])
  else if d.type_ = "system" then .ok (.system d.content)
  else .error ("Unsupported message type: " ++ d.type_)

/-- One MongoDB document of the `chat_memory.mcp_memory` collection:
`{"session_id": ..., "messages": [...]}`. -/
structure MongoRecord where
  session_id : String
  messages : List SerializedMessage
deriving Repr, DecidableEq

/-- The collection, as an ordered list of documents. -/
abbrev MongoCollection := List MongoRecord

/-- `collection.find_one({"session_id": sid})`: first matching document. -/
def find_one : MongoCollection → String → Option MongoRecord
  | [], _ => none
  | r :: rest, sid => if r.session_id == sid then some r else find_one rest sid

/-- `collection.insert_one(record)`. -/
def insert_one (coll : MongoCollection) (r : MongoRecord) : MongoCollection :=
  coll ++ [r]

/-- `collection.update_one({"session_id": sid}, {"$push": {"messages": m}})`:
appends `m` to the messages of the first matching document; a no-op when no
document matches. -/
def push_message : MongoCollection → String → SerializedMessage → MongoCollection
  | [], _, _ => []
  | r :: rest, sid, m =>
    if r.session_id == sid then { r with messages := r.messages ++ [m] } :: rest
    else r :: push_message rest sid m

/-- `collection.update_one({"session_id": sid}, {"$set": {"messages": []}})`,
the body of `clear`. -/
def clear_messages : MongoCollection → String → MongoCollection
  | [], _ => []
  | r :: rest, sid =>
    if r.session_id == sid then { r with messages := [] } :: rest
    else r :: clear_messages rest sid

/-- `CustomMongoChatMessageHistory._ensure_record`: lazily create the session
document when absent. -/
def ensure_record (coll : MongoCollection) (sid : String) : MongoCollection :=
  match find_one coll sid with
  | some _ => coll
  | none => insert_one coll ⟨sid, []⟩

/-- The `messages` property of `CustomMongoChatMessageHistory`: read the
session document and deserialize every stored entry, in stored order; an
absent document reads as `[]`. No window of any size is applied here. -/
def history_messages (coll : MongoCollection) (sid : String) :
    Except String (List BaseMessage) :=
  match find_one coll sid with
  | none => .ok []
  | some r => r.messages.mapM deserialize_message

/-- `CustomMongoChatMessageHistory.add_message`: serialize, then `$push`. -/
def add_message (coll : MongoCollection) (sid : String) (m : BaseMessage) :
    Except String MongoCollection :=
  (serialize_message m).map (push_message coll sid)

/-- `k` passed to `ConversationBufferWindowMemory` in `MCPClient.__init__`. -/
def window_k : Nat := 20

/-- Roles of the OpenAI-format message dicts built in `process_query`. -/
inductive Role where
  | system : Role
  | user : Role
  | assistant : Role
  | tool : Role
deriving Repr, DecidableEq

/-- One OpenAI-format message dict of the live `messages` list in
`process_query`: `role`, `content`, and the optional `tool_calls` /
`tool_call_id` fields used by the assistant / tool entries. -/
structure ChatMessage where
  role : Role
  content : String
  tool_calls : List ToolCall := []
  tool_call_id : Option String := none
deriving Repr, DecidableEq

/-- `safe_messages_to_dict` from `src/client.py`: maps Human/AI/System
messages to role-tagged dicts carrying only their content, and silently
skips (with a console warning) any other message type. -/
def safe_messages_to_dict : List BaseMessage → List ChatMessage
  | [] => []
  | .human c :: ms => ⟨.user, c, [], none⟩ :: safe_messages_to_dict ms
  | .ai c _ :: ms => ⟨.assistant, c, [], none⟩ :: safe_messages_to_dict ms
  | .system c :: ms => ⟨.system, c, [], none⟩ :: safe_messages_to_dict ms
  | .other _ _ :: ms => safe_messages_to_dict ms

/-- The time-sensitive values computed from `datetime.now()` in
`get_system_prompt_from_file`. -/
structure TimeContext where
  current_date : String
  current_datetime : String
  weekday_cn : String
  tomorrow : String
deriving Repr, DecidableEq

/-- The pure core of `get_system_prompt_from_file` from `src/client.py`:
substitute the four template placeholders, in the dict's insertion order.
(Reading `system_prompt.txt` from disk, and the `FileNotFoundError` when it
is absent, are external I/O; `template` is the file's content.) -/
def get_system_prompt_from_file (template : String) (ctx : TimeContext) : String :=
  ((((template.replace "\x7b\x7bcurrent_date\x7d\x7d" ctx.current_date).replace
      "\x7b\x7bcurrent_datetime\x7d\x7d" ctx.current_datetime).replace
      "\x7b\x7bweekday_cn\x7d\x7d" ctx.weekday_cn).replace
      "\x7b\x7btomorrow\x7d\x7d" ctx.tomorrow)

/-- One tool as reported by `session.list_tools()`. -/
structure MCPTool where
  name : String
  description : String
  inputSchema : Json

/-- One entry of `available_tools` in `process_query`:
`{"type": "function", "function": {name, description, parameters}}`. -/
structure FunctionDescriptor where
  name : String
  description : String
  parameters : Json

/-- Step 1 of `process_query`: shape every listed tool into the
function-call descriptor offered to the model. -/
def available_tools (tools : List MCPTool) : List FunctionDescriptor :=
  tools.map fun t => ⟨t.name, t.description, t.inputSchema⟩

/-- The relevant part of `response.choices[0].message` from the first
completion: text content plus the (possibly empty) tool-call list. -/
structure AssistantMessage where
  content : String
  tool_calls : List ToolCall
deriving Repr, DecidableEq

/-- The external collaborators `process_query` consumes, as function-valued
fields: the MCP tool list, the two `chat.completions.create` calls (the
first one is given the tool descriptors with `tool_choice="auto"`; the
second one is sent without any tool descriptors), `session.call_tool`
(returning the `.text` of each content item, and raising as `.error`), and
`json.loads` (`none` models `json.JSONDecodeError`). -/
structure Env where
  list_tools : List MCPTool
  create1 : List ChatMessage → List FunctionDescriptor → Except String AssistantMessage
  create2 : List ChatMessage → Except String String
  call_tool : String → Json → Except String (List String)
  json_loads : String → Option Json

/-- `{"role": "system", "content": prompt}` as inserted at position 0. -/
def mk_system_message (prompt : String) : ChatMessage :=
  ⟨.system, prompt, [], none⟩

/-- Step 3 of `process_query`: if the list is empty or does not start with a
system message, insert a fresh one at position 0; otherwise overwrite the
first message's content with the fresh prompt. -/
def refresh_system_prompt (msgs : List ChatMessage) (prompt : String) :
    List ChatMessage :=
  match msgs with
  | [] => [mk_system_message prompt]
  | m :: rest =>
    if m.role == .system then { m with content := prompt } :: rest
    else mk_system_message prompt :: m :: rest

/-- Steps 2–4 of `process_query`: history to dicts, system-prompt
insert/refresh, then append the user's query. -/
def assemble_messages (history : List BaseMessage) (prompt query : String) :
    List ChatMessage :=
  refresh_system_prompt (safe_messages_to_dict history) prompt
    ++ [⟨.user, query, [], none⟩]

/-- `json.loads(tool_call.function.arguments)` with the
`json.JSONDecodeError` handler: a payload that fails to parse degrades to
the empty argument dict `{}`. -/
def parse_tool_args (env : Env) (tc : ToolCall) : Json :=
  match env.json_loads tc.arguments with
  | some v => v
  | none => empty_args

/-- `result.content[0].text if result.content else "工具执行完成"`. -/
def tool_result_content : List String → String
  | [] => "工具执行完成"
  | t :: _ => t

/-- One iteration of the tool-call loop in `process_query`: parse the
arguments (degrading to `{}`), invoke the tool, and record a tool-role
message correlated by `tool_call.id` holding either the tool's output text
or the failure description `"工具执行失败: ..."` when the invocation
raises. -/
def exec_tool_call (env : Env) (tc : ToolCall) : ChatMessage :=
  match env.call_tool tc.name (parse_tool_args env tc) with
  | .ok content => ⟨.tool, tool_result_content content, [], some tc.id⟩
  | .error e => ⟨.tool, "工具执行失败: " ++ e, [], some tc.id⟩

/-- The templated apology produced by the turn-level `except` handler:
`f"抱歉，处理您的请求时发生了错误: {str(e)}"`. -/
def apology (e : String) : String :=
  "抱歉，处理您的请求时发生了错误: " ++ e

/-- What one turn produced: the returned text, the final live message list,
and the message list sent to the second completion request (`none` when no
second request was issued). -/
structure TurnOutcome where
  final_output : String
  live : List ChatMessage
  second_request : Option (List ChatMessage)

/-- Steps 6–10 of `process_query` (the `try` block): first completion with
the tool descriptors; append the assistant message; if it carries tool
calls, execute them in order, append their results and issue the second
completion (without tool descriptors); any failure of either completion is
caught and becomes the apology text. -/
def run_completions (env : Env) (messages : List ChatMessage) : TurnOutcome :=
  match env.create1 messages (available_tools env.list_tools) with
  | .error e => ⟨apology e, messages, none⟩
  | .ok am =>
    let messages := messages ++ [⟨.assistant, am.content, am.tool_calls, none⟩]
    if am.tool_calls.isEmpty then
      ⟨am.content, messages, none⟩
    else
      let messages := messages ++ am.tool_calls.map (exec_tool_call env)
      match env.create2 messages with
      | .ok out => ⟨out, messages, some messages⟩
      | .error e => ⟨apology e, messages, some messages⟩

/-- `MCPClient.process_query` on one turn, given the already-read history:
render the system prompt once for this turn, assemble the input and run the
completion/tool phase. -/
def process_query (env : Env) (template : String) (ctx : TimeContext)
    (history : List BaseMessage) (query : String) : TurnOutcome :=
  let current_system_prompt := get_system_prompt_from_file template ctx
  run_completions env (assemble_messages history current_system_prompt query)

/-- The persisted-history effect of one full `process_query` call against
the Mongo store: read the session's messages (step 2; raised deserialization
errors propagate, nothing is committed), run the turn, then
`add_user_message(query)` and `add_ai_message(final_output)` (step 11;
`add_ai_message` wraps plain text, so the stored `AIMessage` carries no
tool calls). Returns the turn's text and the updated collection. -/
def turn (env : Env) (template : String) (ctx : TimeContext)
    (coll : MongoCollection) (sid query : String) :
    Except String (String × MongoCollection) := do
  let history ← history_messages coll sid
  let outcome := process_query env template ctx history query
  let coll ← add_message coll sid (.human query)
  let coll ← add_message coll sid (.ai outcome.final_output [])
  return (outcome.final_output, coll)

/-- What survives of `MCPClient.__init__` in the embedding. -/
structure MCPClientInit where
  memory_id : String
deriving Repr, DecidableEq

/-- The credential check and session-id choice of `MCPClient.__init__`:
a missing or empty `OPENAI_API_KEY` raises `ValueError` at construction;
otherwise the client's memory id is the given session id, or a fresh UUID
when none was given. -/
def mcp_client_init (openai_api_key : Option String)
    (session_id : Option String) (fresh_uuid : String) :
    Except String MCPClientInit :=
  if (openai_api_key.getD "").isEmpty then
    .error "❌ 未找到 OpenAI API Key，请在 .env 文件中设置 OPENAI_API_KEY"
  else
    .ok ⟨session_id.getD fresh_uuid⟩

/-- Python's `str.strip()`: drop whitespace from both ends. -/
def strip (s : String) : String :=
  ⟨List.reverse (List.dropWhile Char.isWhitespace
    (List.reverse (List.dropWhile Char.isWhitespace s.data)))⟩

/-- The JSON body of a `/uscagent/chat` request:
`{"query": ..., "session_id": ...}`, both fields optional. -/
structure ChatRequest where
  query : Option String
  session_id : Option String
deriving Repr, DecidableEq

/-- The response body of `chat_endpoint`: either
`{"status": "success", "data": {"response": ..., "session_id": ...}}` or
`{"status": "error", "message": ...}`. -/
inductive ChatResponse where
  | success (response : String) (session_id : String) : ChatResponse
  | error (message : String) : ChatResponse
deriving Repr, DecidableEq

/-- `chat_endpoint` from `src/main.py`: strip the query, default the
session id to a fresh UUID, reject an empty query with the (caught)
`HTTPException` text, and otherwise run the turn on the app-level client —
note the turn always runs against `client_memory_id`, the session id fixed
when `app.state.client` was constructed at startup; the request's
`session_id` is only echoed back in the response. Any exception becomes the
error-shaped body. -/
def chat_endpoint (env : Env) (template : String) (ctx : TimeContext)
    (client_memory_id : String) (fresh_uuid : String)
    (coll : MongoCollection) (req : ChatRequest) :
    ChatResponse × MongoCollection :=
  let query := strip (req.query.getD "")
  let session_id := req.session_id.getD fresh_uuid
  if query.data.isEmpty then
    (ChatResponse.error "400: Query cannot be empty", coll)
  else
    match turn env template ctx coll client_memory_id query with
    | .ok (resp, coll2) => (ChatResponse.success resp session_id, coll2)
    | .error e => (ChatResponse.error e, coll)

/-! ### Concrete environments used to evaluate the model on closed inputs -/

/-- A completion capability that answers with the length of the message list
it was shown and never requests a tool. -/
def demo_env : Env where
  list_tools := []
  create1 := fun msgs _ => .ok ⟨"len=" ++ toString msgs.length, []⟩
  create2 := fun _ => .ok "done"
  call_tool := fun _ _ => .ok ["ok"]
  json_loads := fun _ => none

/-- An environment whose first completion requests two tool calls: one with
an unparsable argument payload naming a registered tool, one with a parsable
payload naming an unregistered tool. `call_tool` answers `"lookup"` with
text, `"empty"` with empty content, and raises on anything else. -/
def tool_env : Env where
  list_tools := [⟨"lookup", "查询", Json.obj []⟩]
  create1 := fun _ _ =>
    .ok ⟨"", [⟨"c1", "lookup", "not-json"⟩, ⟨"c2", "missing", "good"⟩]⟩
  create2 := fun _ => .ok "最终回答"
  call_tool := fun nm _ =>
    if nm == "lookup" then .ok ["查询结果"]
    else if nm == "empty" then .ok []
    else .error "tool not found"
  json_loads := fun s => if s == "good" then some (Json.obj [("x", Json.num 1)]) else none

/-- An environment whose first completion call raises. -/
def fail_env : Env where
  list_tools := []
  create1 := fun _ _ => .error "boom"
  create2 := fun _ => .error "boom"
  call_tool := fun _ _ => .error "boom"
  json_loads := fun _ => none

/-- An environment where the requested tool invocation raises but both
completion calls succeed. -/
def toolfail_env : Env where
  list_tools := []
  create1 := fun _ _ => .ok ⟨"", [⟨"c1", "lookup", "not-json"⟩]⟩
  create2 := fun _ => .ok "最终回答"
  call_tool := fun _ _ => .error "boom"
  json_loads := fun _ => none

/-- A fixed wall-clock context for closed evaluations. -/
def demo_ctx : TimeContext :=
  ⟨"2026年10月12日", "2026年10月12日 12:00:00", "星期日", "2026年10月13日"⟩

/-! ### Helper lemmas -/

/-- `$push` updates exactly the document `find_one` sees: its messages gain
the pushed entry at the end. -/
lemma find_one_push (coll : MongoCollection) (sid : String)
    (m : SerializedMessage) (rec : MongoRecord)
    (h : find_one coll sid = some rec) :
    find_one (push_message coll sid m) sid =
      some { rec with messages := rec.messages ++ [m] } := by
  induction coll with
  | nil => simp [find_one] at h
  | cons r rest ih =>
    by_cases hr : (r.session_id == sid) = true
    · simp only [find_one, push_message, hr, if_true, Option.some.injEq] at h ⊢
      subst h
      rfl
    · simp only [find_one, push_message, hr, if_false, Bool.false_eq_true] at h ⊢
      exact ih h

/-- Closed form of `turn` when the history read succeeds: the turn returns
`process_query`'s text and pushes exactly the serialized user and assistant
entries, in that order. -/
lemma turn_spec (env : Env) (template : String) (ctx : TimeContext)
    (coll : MongoCollection) (sid query : String) (h : List BaseMessage)
    (hread : history_messages coll sid = .ok h) :
    turn env template ctx coll sid query =
      .ok ((process_query env template ctx h query).final_output,
        push_message (push_message coll sid ⟨"human", query⟩) sid
          ⟨"ai", (process_query env template ctx h query).final_output⟩) := by
  unfold turn
  rw [hread]
  rfl

/-- `append_n coll sid n`: `n` successive `add_message` calls (each a
`HumanMessage`) against the store, as the claims' "N append calls". -/
def append_n (coll : MongoCollection) (sid : String) (n : Nat) :
    Except String MongoCollection :=
  (List.range n).foldlM (fun c i => add_message c sid (.human (toString i))) coll

/-- First completion returned text only: the turn's outcome is that text,
the live list gained just the assistant entry, and no second request was
issued. -/
lemma run_completions_no_tools (env : Env) (msgs : List ChatMessage)
    (am : AssistantMessage)
    (h1 : env.create1 msgs (available_tools env.list_tools) = .ok am)
    (h2 : am.tool_calls = []) :
    run_completions env msgs =
      ⟨am.content, msgs ++ [⟨.assistant, am.content, [], none⟩], none⟩ := by
  unfold run_completions
  rw [h1]
  simp [h2]

/-- First completion returned tool calls: whatever the second completion
does, the request sent to it is the assembled list plus the assistant entry
plus one result per tool call, in order. -/
lemma run_completions_second_request (env : Env) (msgs : List ChatMessage)
    (am : AssistantMessage)
    (h1 : env.create1 msgs (available_tools env.list_tools) = .ok am)
    (h2 : am.tool_calls ≠ []) :
    (run_completions env msgs).second_request =
      some (msgs ++ [⟨.assistant, am.content, am.tool_calls, none⟩]
        ++ am.tool_calls.map (exec_tool_call env)) := by
  unfold run_completions
  rw [h1]
  have hb : am.tool_calls.isEmpty = false := by
    cases h : am.tool_calls
    · exact absurd h h2
    · rfl
  simp only [hb, Bool.false_eq_true, if_false]
  cases env.create2 (msgs ++ [⟨.assistant, am.content, am.tool_calls, none⟩]
      ++ am.tool_calls.map (exec_tool_call env)) <;> rfl

/-- A raising first completion is caught and turned into the apology. -/
lemma run_completions_error1 (env : Env) (msgs : List ChatMessage) (e : String)
    (h : env.create1 msgs (available_tools env.list_tools) = .error e) :
    run_completions env msgs = ⟨apology e, msgs, none⟩ := by
  unfold run_completions
  rw [h]

/-- With tool calls present, the turn's text is the second completion's
answer, or the apology when that call raises. -/
lemma run_completions_final_with_tools (env : Env) (msgs : List ChatMessage)
    (am : AssistantMessage)
    (h1 : env.create1 msgs (available_tools env.list_tools) = .ok am)
    (h2 : am.tool_calls ≠ []) :
    (run_completions env msgs).final_output =
      (match env.create2 (msgs ++ [⟨.assistant, am.content, am.tool_calls, none⟩]
          ++ am.tool_calls.map (exec_tool_call env)) with
       | .ok out => out
       | .error e => apology e) := by
  unfold run_completions
  rw [h1]
  have hb : am.tool_calls.isEmpty = false := by
    cases h : am.tool_calls
    · exact absurd h h2
    · rfl
  simp only [hb, Bool.false_eq_true, if_false]
  cases env.create2 (msgs ++ [⟨.assistant, am.content, am.tool_calls, none⟩]
      ++ am.tool_calls.map (exec_tool_call env)) <;> rfl

/-- Step 3 always leaves a system-role head carrying exactly the fresh
prompt. -/
lemma refresh_head (msgs : List ChatMessage) (prompt : String) :
    ∃ hd rest, refresh_system_prompt msgs prompt = hd :: rest ∧
      hd.role = .system ∧ hd.content = prompt := by
  cases msgs with
  | nil => exact ⟨mk_system_message prompt, [], rfl, rfl, rfl⟩
  | cons m rest =>
    by_cases hm : (m.role == Role.system) = true
    · exact ⟨{ m with content := prompt }, rest,
        by simp [refresh_system_prompt, hm], by simpa using hm, rfl⟩
    · exact ⟨mk_system_message prompt, m :: rest,
        by simp [refresh_system_prompt, hm], rfl, rfl⟩

/-- The completion/tool phase only ever appends to the live list. -/
lemma run_completions_live (env : Env) (msgs : List ChatMessage) :
    ∃ extra, (run_completions env msgs).live = msgs ++ extra := by
  unfold run_completions
  split
  · exact ⟨[], by simp⟩
  next am _ =>
    split
    · exact ⟨[⟨.assistant, am.content, am.tool_calls, none⟩], by simp⟩
    · dsimp only
      split <;>
        exact ⟨[⟨.assistant, am.content, am.tool_calls, none⟩]
          ++ am.tool_calls.map (exec_tool_call env), by simp⟩

/-! ### Claims -/

/-- C1: the claim says a read after N appends returns `min(N, k)` = `min(N, 20)`
most-recent messages; the store's `messages` property applies no window at
all (the `ConversationBufferWindowMemory(k=20)` configured in
`MCPClient.__init__` is bypassed by reading `chat_memory.messages`
directly, despite the source comments asserting the 20-message limit).
After 21 appends to a fresh session the read returns all 21 messages,
not `min(21, 20) = 20`. -/
theorem history_window_not_enforced :
    (append_n (ensure_record [] "s1") "s1" 21).map
        (fun c => (history_messages c "s1").map List.length) =
      .ok (.ok 21) ∧ 21 ≠ min 21 window_k := by
  exact ⟨rfl, by decide⟩

/-- C2: whatever the completion environment does (success or failure of
either completion call, any tool behavior), a completed turn commits
exactly two new entries to the session's persisted record: the serialized
user message followed by the serialized final assistant text; no tool-call
or tool-result entry is persisted. -/
theorem turn_commits_exactly_two (env : Env) (template : String)
    (ctx : TimeContext) (coll : MongoCollection) (sid query : String)
    (rec : MongoRecord) (h : List BaseMessage)
    (hrec : find_one coll sid = some rec)
    (hread : history_messages coll sid = .ok h) :
    ∃ out coll2,
      turn env template ctx coll sid query = .ok (out, coll2) ∧
      out = (process_query env template ctx h query).final_output ∧
      find_one coll2 sid =
        some { rec with messages :=
          rec.messages ++ [⟨"human", query⟩, ⟨"ai", out⟩] } := by
  refine ⟨_, _, turn_spec env template ctx coll sid query h hread, rfl, ?_⟩
  have h1 := find_one_push coll sid ⟨"human", query⟩ rec hrec
  have h2 := find_one_push _ sid
    ⟨"ai", (process_query env template ctx h query).final_output⟩ _ h1
  simpa [List.append_assoc] using h2

/-- Witness for C2 at a concrete store, session and environment. -/
theorem turn_commits_exactly_two_witness :
    ∃ out coll2,
      turn demo_env "T" demo_ctx [⟨"s", []⟩] "s" "hi" = .ok (out, coll2) ∧
      out = (process_query demo_env "T" demo_ctx [] "hi").final_output ∧
      find_one coll2 "s" =
        some ⟨"s", [] ++ [⟨"human", "hi"⟩, ⟨"ai", out⟩]⟩ :=
  turn_commits_exactly_two demo_env "T" demo_ctx [⟨"s", []⟩] "s" "hi"
    ⟨"s", []⟩ [] rfl rfl

/-- C3: when the first completion returns `M ≥ 1` tool calls, the request
sent to the second completion is the assembled input plus the assistant
entry plus exactly `M` tool-result messages, one per tool call in received
order; each result carries its call's correlation id and holds either the
tool's output text or the failure-description string, so a raising
invocation answers its call and does not abort the rest. The second
completion is issued on exactly this list (and, structurally, `create2`
receives no tool descriptors). -/
theorem tool_calls_all_answered (env : Env) (template : String)
    (ctx : TimeContext) (history : List BaseMessage) (query : String)
    (am : AssistantMessage)
    (hc : env.create1
        (assemble_messages history (get_system_prompt_from_file template ctx) query)
        (available_tools env.list_tools) = .ok am)
    (hne : am.tool_calls ≠ []) :
    (process_query env template ctx history query).second_request =
      some (assemble_messages history (get_system_prompt_from_file template ctx) query
        ++ [⟨.assistant, am.content, am.tool_calls, none⟩]
        ++ am.tool_calls.map (exec_tool_call env)) ∧
    (am.tool_calls.map (exec_tool_call env)).length = am.tool_calls.length ∧
    ∀ tc ∈ am.tool_calls,
      (exec_tool_call env tc).tool_call_id = some tc.id ∧
      (exec_tool_call env tc).role = .tool ∧
      ((∃ texts, env.call_tool tc.name (parse_tool_args env tc) = .ok texts ∧
          (exec_tool_call env tc).content = tool_result_content texts) ∨
       (∃ e, env.call_tool tc.name (parse_tool_args env tc) = .error e ∧
          (exec_tool_call env tc).content = "工具执行失败: " ++ e)) := by
  refine ⟨run_completions_second_request env _ am hc hne, by simp, ?_⟩
  intro tc _
  cases hct : env.call_tool tc.name (parse_tool_args env tc) with
  | ok texts =>
    refine ⟨?_, ?_, .inl ⟨texts, rfl, ?_⟩⟩ <;> simp [exec_tool_call, hct]
  | error e =>
    refine ⟨?_, ?_, .inr ⟨e, rfl, ?_⟩⟩ <;> simp [exec_tool_call, hct]

/-- Witness for C3: two tool calls (one invocation succeeds after its
payload fails to parse, one raises), both answered, second request built. -/
theorem tool_calls_all_answered_witness :
    (process_query tool_env "T" demo_ctx [] "q").second_request =
      some (assemble_messages [] (get_system_prompt_from_file "T" demo_ctx) "q"
        ++ [⟨.assistant, "",
              [⟨"c1", "lookup", "not-json"⟩, ⟨"c2", "missing", "good"⟩], none⟩]
        ++ [exec_tool_call tool_env ⟨"c1", "lookup", "not-json"⟩,
            exec_tool_call tool_env ⟨"c2", "missing", "good"⟩]) :=
  (tool_calls_all_answered tool_env "T" demo_ctx [] "q"
    ⟨"", [⟨"c1", "lookup", "not-json"⟩, ⟨"c2", "missing", "good"⟩]⟩
    rfl (by simp)).1

/-- C4: with zero tool calls the turn's text is the first completion's
content verbatim, no second completion request is made, and the committed
assistant entry carries exactly that content. -/
theorem no_tool_calls_verbatim (env : Env) (template : String)
    (ctx : TimeContext) (coll : MongoCollection) (sid query : String)
    (rec : MongoRecord) (h : List BaseMessage) (am : AssistantMessage)
    (hrec : find_one coll sid = some rec)
    (hread : history_messages coll sid = .ok h)
    (hc : env.create1
        (assemble_messages h (get_system_prompt_from_file template ctx) query)
        (available_tools env.list_tools) = .ok am)
    (hno : am.tool_calls = []) :
    (process_query env template ctx h query).final_output = am.content ∧
    (process_query env template ctx h query).second_request = none ∧
    turn env template ctx coll sid query =
      .ok (am.content,
        push_message (push_message coll sid ⟨"human", query⟩) sid
          ⟨"ai", am.content⟩) ∧
    find_one (push_message (push_message coll sid ⟨"human", query⟩) sid
        ⟨"ai", am.content⟩) sid =
      some { rec with messages :=
        rec.messages ++ [⟨"human", query⟩, ⟨"ai", am.content⟩] } := by
  have hpq := run_completions_no_tools env
    (assemble_messages h (get_system_prompt_from_file template ctx) query) am hc hno
  have h1 : (process_query env template ctx h query).final_output = am.content := by
    unfold process_query
    rw [hpq]
  have h2 : (process_query env template ctx h query).second_request = none := by
    unfold process_query
    rw [hpq]
  have hts := turn_spec env template ctx coll sid query h hread
  rw [h1] at hts
  have h3 := find_one_push coll sid ⟨"human", query⟩ rec hrec
  have h4 := find_one_push _ sid ⟨"ai", am.content⟩ _ h3
  refine ⟨h1, h2, hts, ?_⟩
  simpa [List.append_assoc] using h4

/-- Witness for C4 at a concrete store and environment. -/
theorem no_tool_calls_verbatim_witness :
    (process_query demo_env "T" demo_ctx [] "hi").final_output = "len=2" ∧
    (process_query demo_env "T" demo_ctx [] "hi").second_request = none ∧
    turn demo_env "T" demo_ctx [⟨"s", []⟩] "s" "hi" =
      .ok ("len=2",
        push_message (push_message [⟨"s", []⟩] "s" ⟨"human", "hi"⟩) "s"
          ⟨"ai", "len=2"⟩) ∧
    find_one (push_message (push_message [⟨"s", []⟩] "s" ⟨"human", "hi"⟩) "s"
        ⟨"ai", "len=2"⟩) "s" =
      some ⟨"s", [] ++ [⟨"human", "hi"⟩, ⟨"ai", "len=2"⟩]⟩ :=
  no_tool_calls_verbatim demo_env "T" demo_ctx [⟨"s", []⟩] "s" "hi"
    ⟨"s", []⟩ [] ⟨"len=2", []⟩ rfl rfl rfl rfl

/-- C5: a tool-call payload that fails to parse degrades to the empty
argument mapping, and the tool is still invoked with it — the recorded
result message is exactly what invoking the tool on `{}` yields (success
text or failure description), so the parse failure neither aborts the turn
nor skips the invocation. -/
theorem parse_failure_empty_args (env : Env) (tc : ToolCall)
    (h : env.json_loads tc.arguments = none) :
    parse_tool_args env tc = empty_args ∧
    exec_tool_call env tc =
      (match env.call_tool tc.name empty_args with
       | .ok content => ⟨.tool, tool_result_content content, [], some tc.id⟩
       | .error e => ⟨.tool, "工具执行失败: " ++ e, [], some tc.id⟩) := by
  have h1 : parse_tool_args env tc = empty_args := by
    unfold parse_tool_args
    rw [h]
  refine ⟨h1, ?_⟩
  unfold exec_tool_call
  rw [h1]

/-- Witness for C5: `"not-json"` fails to parse, yet `"lookup"` is invoked
on the empty mapping. -/
theorem parse_failure_empty_args_witness :
    parse_tool_args tool_env ⟨"c1", "lookup", "not-json"⟩ = empty_args ∧
    exec_tool_call tool_env ⟨"c1", "lookup", "not-json"⟩ =
      (match tool_env.call_tool "lookup" empty_args with
       | .ok content => ⟨.tool, tool_result_content content, [], some "c1"⟩
       | .error e => ⟨.tool, "工具执行失败: " ++ e, [], some "c1"⟩) :=
  parse_failure_empty_args tool_env ⟨"c1", "lookup", "not-json"⟩ rfl

/-- C6: after loading history, an empty list or one whose first message is
not a system message gets a freshly rendered system prompt inserted at
position 0, while a leading system message has its content overwritten with
the fresh prompt; the prompt is rendered once per turn by
`get_system_prompt_from_file`, which substitutes the turn's time context,
so the live list of the turn always starts with the current prompt. -/
theorem system_prompt_always_fresh (template : String) (ctx : TimeContext)
    (msgs : List ChatMessage) (env : Env) (history : List BaseMessage)
    (query : String) :
    (refresh_system_prompt [] (get_system_prompt_from_file template ctx) =
        [mk_system_message (get_system_prompt_from_file template ctx)]) ∧
    (∀ m rest, msgs = m :: rest → m.role ≠ .system →
        refresh_system_prompt msgs (get_system_prompt_from_file template ctx) =
          mk_system_message (get_system_prompt_from_file template ctx)
            :: m :: rest) ∧
    (∀ m rest, msgs = m :: rest → m.role = .system →
        refresh_system_prompt msgs (get_system_prompt_from_file template ctx) =
          { m with content := get_system_prompt_from_file template ctx }
            :: rest) ∧
    (∃ hd rest2,
        (process_query env template ctx history query).live = hd :: rest2 ∧
        hd.role = .system ∧
        hd.content = get_system_prompt_from_file template ctx) := by
  refine ⟨rfl, ?_, ?_, ?_⟩
  · intro m rest hm hrole
    subst hm
    simp [refresh_system_prompt, hrole]
  · intro m rest hm hrole
    subst hm
    simp [refresh_system_prompt, hrole]
  · obtain ⟨hd, t, hre, hrole, hcont⟩ :=
      refresh_head (safe_messages_to_dict history)
        (get_system_prompt_from_file template ctx)
    obtain ⟨extra, hlive⟩ := run_completions_live env
      (assemble_messages history (get_system_prompt_from_file template ctx) query)
    refine ⟨hd, t ++ [⟨.user, query, [], none⟩] ++ extra, ?_, hrole, hcont⟩
    have hasm : assemble_messages history
        (get_system_prompt_from_file template ctx) query =
        hd :: (t ++ [⟨.user, query, [], none⟩]) := by
      unfold assemble_messages
      rw [hre]
      simp
    unfold process_query
    rw [hlive, hasm]
    simp

/-- Witness for C6: a history starting with a user message gets the fresh
prompt inserted in front. -/
theorem system_prompt_always_fresh_witness :
    refresh_system_prompt [⟨Role.user, "x", [], none⟩]
        (get_system_prompt_from_file "T" demo_ctx) =
      mk_system_message (get_system_prompt_from_file "T" demo_ctx)
        :: ⟨Role.user, "x", [], none⟩ :: [] :=
  (system_prompt_always_fresh "T" demo_ctx [⟨Role.user, "x", [], none⟩]
    demo_env [] "q").2.1 ⟨Role.user, "x", [], none⟩ [] rfl (by decide)

/-- C9: a successful tool invocation with empty returned content is
recorded as the literal default completion string `"工具执行完成"`. -/
theorem empty_tool_output_default (env : Env) (tc : ToolCall)
    (h : env.call_tool tc.name (parse_tool_args env tc) = .ok []) :
    exec_tool_call env tc = ⟨.tool, "工具执行完成", [], some tc.id⟩ := by
  unfold exec_tool_call
  rw [h]
  rfl

/-- Witness for C9: the `"empty"` tool returns no content. -/
theorem empty_tool_output_default_witness :
    exec_tool_call tool_env ⟨"c3", "empty", "x"⟩ =
      ⟨.tool, "工具执行完成", [], some "c3"⟩ :=
  empty_tool_output_default tool_env ⟨"c3", "empty", "x"⟩ rfl

/-- C7 counterexample: the claim says any exception raised during the
tool-execution phase makes `handle_turn` return an apology string
containing the error description. In `toolfail_env` the single tool
invocation raises (`"boom"`), yet the turn returns the second completion's
answer `"最终回答"`, not an apology: tool failures are caught per
invocation and recorded in the transcript, they do not produce the
turn-level apology. -/
theorem tool_error_not_apology :
    (process_query toolfail_env "T" demo_ctx [] "q").final_output = "最终回答" ∧
    (process_query toolfail_env "T" demo_ctx [] "q").final_output ≠
      apology "boom" := by
  exact ⟨rfl, by decide⟩

/-- C7 as amended: a raising first or second completion call is caught at
the turn level and becomes the apology string carrying the error
description; a raising tool invocation is caught per invocation and becomes
a failure tool-result, the turn continuing to the second completion whose
answer is returned; `process_query` itself is total (it never raises), and
the only construction-time exception is the configuration error for a
missing/empty `OPENAI_API_KEY`. -/
theorem turn_error_handling (env : Env) (template : String) (ctx : TimeContext)
    (history : List BaseMessage) (query : String) :
    (∀ e, env.create1
        (assemble_messages history (get_system_prompt_from_file template ctx) query)
        (available_tools env.list_tools) = .error e →
      (process_query env template ctx history query).final_output = apology e) ∧
    (∀ am e, env.create1
        (assemble_messages history (get_system_prompt_from_file template ctx) query)
        (available_tools env.list_tools) = .ok am → am.tool_calls ≠ [] →
      env.create2
        (assemble_messages history (get_system_prompt_from_file template ctx) query
          ++ [⟨.assistant, am.content, am.tool_calls, none⟩]
          ++ am.tool_calls.map (exec_tool_call env)) = .error e →
      (process_query env template ctx history query).final_output = apology e) ∧
    (∀ tc e, env.call_tool tc.name (parse_tool_args env tc) = .error e →
      exec_tool_call env tc = ⟨.tool, "工具执行失败: " ++ e, [], some tc.id⟩) ∧
    (∀ am out, env.create1
        (assemble_messages history (get_system_prompt_from_file template ctx) query)
        (available_tools env.list_tools) = .ok am → am.tool_calls ≠ [] →
      env.create2
        (assemble_messages history (get_system_prompt_from_file template ctx) query
          ++ [⟨.assistant, am.content, am.tool_calls, none⟩]
          ++ am.tool_calls.map (exec_tool_call env)) = .ok out →
      (process_query env template ctx history query).final_output = out) ∧
    (∀ key sid fresh,
      (∃ msg, mcp_client_init key sid fresh = .error msg) ↔
        (key.getD "").isEmpty = true) := by
  refine ⟨?_, ?_, ?_, ?_, ?_⟩
  · intro e he
    exact congrArg TurnOutcome.final_output (run_completions_error1 env _ e he)
  · intro am e h1 h2 h3
    have hfin : (run_completions env
        (assemble_messages history
          (get_system_prompt_from_file template ctx) query)).final_output
        = apology e := by
      rw [run_completions_final_with_tools env _ am h1 h2, h3]
    exact hfin
  · intro tc e h
    unfold exec_tool_call
    rw [h]
  · intro am out h1 h2 h3
    have hfin : (run_completions env
        (assemble_messages history
          (get_system_prompt_from_file template ctx) query)).final_output
        = out := by
      rw [run_completions_final_with_tools env _ am h1 h2, h3]
    exact hfin
  · intro key sid fresh
    constructor
    · rintro ⟨msg, hmsg⟩
      by_cases hk : (key.getD "").isEmpty = true
      · exact hk
      · unfold mcp_client_init at hmsg
        rw [if_neg hk] at hmsg
        exact absurd hmsg (by simp)
    · intro hk
      exact ⟨_, by unfold mcp_client_init; rw [if_pos hk]⟩

/-- Witness for the amended C7: a raising first completion yields the
apology. -/
theorem turn_error_handling_witness :
    (process_query fail_env "T" demo_ctx [] "q").final_output =
      apology "boom" :=
  (turn_error_handling fail_env "T" demo_ctx [] "q").1 "boom" rfl

/-- C8 counterexample: the claim says a request without a `session_id`
starts a stateless turn that does not attach to any prior session's
history. After one request without `session_id`, the app client's session
record holds that turn; a second request without `session_id` is answered
from a 4-message input (prior user/assistant pair included), whereas the
same request against the startup state is answered from a 2-message input —
the second turn did attach to the prior history. -/
theorem absent_session_id_attaches_to_history :
    history_messages
        (chat_endpoint demo_env "T" demo_ctx "app" "u1" [⟨"app", []⟩]
          ⟨some "q1", none⟩).2 "app" =
      .ok [.human "q1", .ai "len=2" []] ∧
    (chat_endpoint demo_env "T" demo_ctx "app" "u2"
        (chat_endpoint demo_env "T" demo_ctx "app" "u1" [⟨"app", []⟩]
          ⟨some "q1", none⟩).2 ⟨some "q2", none⟩).1 =
      .success "len=4" "u2" ∧
    (chat_endpoint demo_env "T" demo_ctx "app" "u2" [⟨"app", []⟩]
        ⟨some "q2", none⟩).1 = .success "len=2" "u2" ∧
    ("len=4" : String) ≠ "len=2" := by
  exact ⟨rfl, rfl, rfl, by decide⟩

/-- C8 as amended: a non-empty query whose turn succeeds yields the
success-shaped body `(response, session_id)` with `session_id` defaulting
to the fresh identifier when absent; a failing turn or an empty query
yields the error-shaped body; but the request's `session_id` is only echoed
back — the turn always runs against the app-level client's single session,
so the persisted state is identical whether `session_id` is present or
absent, and the turn attaches to that shared session's prior history. -/
theorem chat_endpoint_shape (env : Env) (template : String) (ctx : TimeContext)
    (mid fresh : String) (coll : MongoCollection) (qopt sopt : Option String) :
    (∀ out coll2, (strip (qopt.getD "")).data.isEmpty = false →
      turn env template ctx coll mid (strip (qopt.getD "")) = .ok (out, coll2) →
      chat_endpoint env template ctx mid fresh coll ⟨qopt, sopt⟩ =
        (ChatResponse.success out (sopt.getD fresh), coll2)) ∧
    (∀ e, (strip (qopt.getD "")).data.isEmpty = false →
      turn env template ctx coll mid (strip (qopt.getD "")) = .error e →
      chat_endpoint env template ctx mid fresh coll ⟨qopt, sopt⟩ =
        (ChatResponse.error e, coll)) ∧
    ((strip (qopt.getD "")).data.isEmpty = true →
      chat_endpoint env template ctx mid fresh coll ⟨qopt, sopt⟩ =
        (ChatResponse.error "400: Query cannot be empty", coll)) ∧
    ((chat_endpoint env template ctx mid fresh coll ⟨qopt, sopt⟩).2 =
      (chat_endpoint env template ctx mid fresh coll ⟨qopt, none⟩).2) := by
  refine ⟨?_, ?_, ?_, ?_⟩
  · intro out coll2 hq ht
    unfold chat_endpoint
    dsimp only
    rw [hq]
    simp only [Bool.false_eq_true, if_false]
    rw [ht]
  · intro e hq ht
    unfold chat_endpoint
    dsimp only
    rw [hq]
    simp only [Bool.false_eq_true, if_false]
    rw [ht]
  · intro hq
    simp [chat_endpoint, hq]
  · unfold chat_endpoint
    dsimp only
    cases hq : (strip (qopt.getD "")).data.isEmpty
    · simp only [Bool.false_eq_true, if_false]
      cases ht : turn env template ctx coll mid (strip (qopt.getD "")) with
      | error e => rfl
      | ok p =>
        cases p
        rfl
    · rfl

/-- Witness for the amended C8: a successful turn on a request without a
`session_id` returns the success body echoing the fresh identifier. -/
theorem chat_endpoint_shape_witness :
    chat_endpoint demo_env "T" demo_ctx "app" "u1" [⟨"app", []⟩]
        ⟨some "hi", none⟩ =
      (ChatResponse.success "len=2" "u1",
        [⟨"app", [⟨"human", "hi"⟩, ⟨"ai", "len=2"⟩]⟩]) :=
  (chat_endpoint_shape demo_env "T" demo_ctx "app" "u1" [⟨"app", []⟩]
    (some "hi") none).1 "len=2" [⟨"app", [⟨"human", "hi"⟩, ⟨"ai", "len=2"⟩]⟩]
    rfl rfl

/-- C10 counterexample: the claim says tool-call-bearing messages can never
be persisted because `serialize_message` raises on them. An `AIMessage`
carrying tool calls passes the `isinstance` check and is serialized
(content only) rather than rejected; the round trip silently drops its
tool calls. -/
theorem tool_call_bearing_message_persisted :
    serialize_message (.ai "查询中" [⟨"c1", "lookup", "not-json"⟩]) =
      .ok ⟨"ai", "查询中"⟩ ∧
    deserialize_message ⟨"ai", "查询中"⟩ = .ok (.ai "查询中" []) ∧
    BaseMessage.ai "查询中" [⟨"c1", "lookup", "not-json"⟩] ≠
      BaseMessage.ai "查询中" [] := by
  exact ⟨rfl, rfl, by decide⟩

/-- C10 as amended: for human, ai and system messages the round trip
preserves role and content (an ai message's tool calls are not stored and
come back empty); `serialize_message` raises `ValueError` on every other
message type, so tool-result messages can never be persisted — but an
assistant message bearing tool calls is persisted (content only) rather
than rejected. -/
theorem serialize_roundtrip :
    (∀ c, (serialize_message (.human c)).bind deserialize_message =
      .ok (.human c)) ∧
    (∀ c, (serialize_message (.system c)).bind deserialize_message =
      .ok (.system c)) ∧
    (∀ c tcs, (serialize_message (.ai c tcs)).bind deserialize_message =
      .ok (.ai c [])) ∧
    (∀ t c, serialize_message (.other t c) =
      .error ("Unsupported message type: " ++ t)) :=
  ⟨fun _ => rfl, fun _ => rfl, fun _ _ => rfl, fun _ _ => rfl⟩

end McpRag
